import Mathlib

/-!
Shallow embedding of the creator-vault backend (src/backend) idea pipeline:
the SQLModel `Idea` row, the pydantic schemas (`IdeaCreate`, `IdeaUpdate`,
`IdeaResponse`, `IdeaListResponse`), the repository layer
(`IdeaRepository`), the service layer (`IdeaService`) and the FastAPI
endpoint handlers in `api/v1/endpoints/ideas.py`.

Modelling conventions:
- UUIDs are `Nat` (the service receives the freshly generated id as an
  explicit argument, mirroring `uuid4()`), timestamps are `Nat` (each
  `datetime.now(timezone.utc)` call site becomes an explicit argument).
- The database session is a `Store` value (list of rows); `flush` is
  modelled by the `Store.create` / `Store.update` operations, which
  enforce the NOT NULL column constraints of the `ideas` table as
  declared on the SQLModel (`title`, `stage`, `priority` are NOT NULL;
  `notes`, `tags`, `due_date` are nullable — `tags` uses
  `sa_column=Column(String(1000))` whose nullability defaults to true,
  and the test database is created from this model metadata).
- Python attributes that the code can set to `None` via `setattr` are
  `Option` fields on the row type, even when the column is NOT NULL:
  the constraint is only checked at flush time, exactly as in the code.
- `get_session` commits on success and rolls back on any exception
  (`core/database.py`); endpoint wrappers model this with `runRequest`.
- Pydantic v2 does not coerce a `str` into `list[str]` (strings are
  deliberately excluded from list coercion), so validating the stored
  comma-joined tags string against `IdeaResponse.tags : list[str]`
  fails; `validateTagsList` encodes this.
- SQLAlchemy renders `.contains(x)` on a `String` column as a
  `LIKE '%' || x || '%'` substring test, and the source passes the
  one-element Python list `[tag]` as `x`: no driver can bind a Python
  list into the string-typed LIKE parameter (under the migration's
  JSONB schema the LIKE does not even compile), so executing any
  tags-filtered query raises instead of filtering; the repository
  operations return that execution error (`likeBindMsg`) whenever the
  `if tags:` guard makes the filter active.
-/

deriving instance DecidableEq for Except

/-! Python string primitives used by the code (`str.strip`, `str.lower`,
`str.split(",")`, SQL `LIKE` substring matching), modelled as structural
functions over the character list so that they evaluate. -/

/-- Python `str.strip()`: remove leading and trailing whitespace. -/
def pyStrip (s : String) : String :=
  ⟨((s.data.dropWhile Char.isWhitespace).reverse.dropWhile Char.isWhitespace).reverse⟩

/-- Python `str.lower()` (ASCII casing suffices for this code base). -/
def pyLower (s : String) : String :=
  ⟨s.data.map Char.toLower⟩

/-- Python `str.split(",")` — splitting accumulator over the characters. -/
def splitCommaAux : List Char → List Char → List String
  | [], acc => [⟨acc.reverse⟩]
  | c :: cs, acc =>
      if c == ',' then ⟨acc.reverse⟩ :: splitCommaAux cs []
      else splitCommaAux cs (c :: acc)

/-- Python `str.split(",")`. -/
def pySplitComma (s : String) : List String :=
  splitCommaAux s.data []

/-- Python `",".join(xs)`. -/
def pyJoinComma : List String → String
  | [] => ""
  | [s] => s
  | s :: rest => s ++ "," ++ pyJoinComma rest

/-- Whether the first list is a leading segment of the second. -/
def leadsB : List Char → List Char → Bool
  | [], _ => true
  | _ :: _, [] => false
  | a :: as, b :: bs => a == b && leadsB as bs

/-- Whether `needle` occurs contiguously inside `hay` (SQL
`LIKE '%needle%'`). -/
def substrB (needle : List Char) : List Char → Bool
  | [] => needle.isEmpty
  | b :: bs => leadsB needle (b :: bs) || substrB needle bs

inductive StageEnum
  | idea
  | outline
  | draft
  | published
  deriving DecidableEq, Repr

inductive PriorityEnum
  | high
  | medium
  | low
  deriving DecidableEq, Repr

def StageEnum.toStr : StageEnum → String
  | .idea => "idea"
  | .outline => "outline"
  | .draft => "draft"
  | .published => "published"

def PriorityEnum.toStr : PriorityEnum → String
  | .high => "high"
  | .medium => "medium"
  | .low => "low"

/-- One row of the `ideas` table, as held by the ORM session
(`src/backend/src/models/idea.py`).  Fields that the service code can
set to Python `None` through `setattr` are `Option`; the NOT NULL
constraints are checked by the store at flush time. -/
structure Idea where
  id : Nat
  user_id : String
  title : Option String
  notes : Option String
  stage : Option StageEnum
  priority : Option PriorityEnum
  tags : Option String
  due_date : Option Nat
  created_at : Nat
  updated_at : Nat
  deriving DecidableEq, Repr

/-- NOT NULL column check applied at flush: `title`, `stage` and
`priority` are declared `nullable=False` on the model; `notes`, `tags`
and `due_date` are nullable. -/
def Idea.rowNotNullOk (r : Idea) : Bool :=
  r.title.isSome && r.stage.isSome && r.priority.isSome

/-- The database state: the rows of the `ideas` table. -/
structure Store where
  rows : List Idea
  deriving DecidableEq, Repr

def emptyStore : Store := ⟨[]⟩

/-- BaseRepository.create: `session.add` + `flush`.  The flush enforces
the primary-key and NOT NULL constraints; on an integrity error the
exception propagates (no row is added). -/
def Store.create (st : Store) (obj : Idea) : Except String (Idea × Store) :=
  if !(st.rows.all fun r => r.id != obj.id) then
    .error "IntegrityError: duplicate primary key"
  else if obj.rowNotNullOk then
    .ok (obj, ⟨st.rows ++ [obj]⟩)
  else
    .error "IntegrityError: NOT NULL constraint failed"

/-- BaseRepository.update: `session.add` of an already-fetched row +
`flush`; the row with the same primary key takes the new field values.
NOT NULL violations raise and leave the flushed state unchanged. -/
def Store.update (st : Store) (obj : Idea) : Except String (Idea × Store) :=
  if obj.rowNotNullOk then
    .ok (obj, ⟨st.rows.map fun r => if r.id == obj.id then obj else r⟩)
  else
    .error "IntegrityError: NOT NULL constraint failed"

/-! Pydantic schema layer (`src/backend/src/schemas/idea.py`). -/

/-- Field constraints and the `validate_title` validator shared by
`IdeaBase` (hence `IdeaCreate` and `IdeaResponse`): `min_length=1`,
`max_length=200`, then trim and reject empty or whitespace-only. -/
def validateTitleBase (v : String) : Except String String :=
  if v.length < 1 then .error "String should have at least 1 character"
  else if 200 < v.length then .error "String should have at most 200 characters"
  else if pyStrip v = "" then .error "Title cannot be empty or whitespace only"
  else .ok (pyStrip v)

/-- The `notes` field constraint: `max_length=5000`, `None` allowed. -/
def validateNotes : Option String → Except String (Option String)
  | none => .ok none
  | some v =>
      if 5000 < v.length then .error "String should have at most 5000 characters"
      else .ok (some v)

/-- Body of a POST (and PUT) request after JSON parsing: the fields of
`IdeaCreate`, with the schema defaults. -/
structure IdeaCreate where
  title : String
  notes : Option String := none
  stage : StageEnum := .idea
  priority : PriorityEnum := .medium
  tags : List String := []
  due_date : Option Nat := none
  deriving DecidableEq, Repr

/-- Pydantic validation of an `IdeaCreate` body: title constraints and
validator (normalising to the trimmed title), notes length; the first
field error aborts. -/
def IdeaCreate.validate (d : IdeaCreate) : Except String IdeaCreate :=
  match validateTitleBase d.title with
  | .error e => .error e
  | .ok t =>
      match validateNotes d.notes with
      | .error e => .error e
      | .ok n => .ok { d with title := t, notes := n }

/-- Body of a PATCH request: each field of `IdeaUpdate` is either absent
from the JSON body (outer `none`, pydantic "unset") or present (outer
`some`), and a present field may carry an explicit `null` (inner
`none`). -/
structure IdeaUpdate where
  title : Option (Option String) := none
  notes : Option (Option String) := none
  stage : Option (Option StageEnum) := none
  priority : Option (Option PriorityEnum) := none
  tags : Option (Option (List String)) := none
  due_date : Option (Option Nat) := none
  deriving DecidableEq, Repr

/-- The `IdeaUpdate.validate_title` validator together with the title
field constraints: a provided `null` passes through unchanged; a
provided string must satisfy the length bounds and not be empty or
whitespace-only, and is normalised to its trim. -/
def IdeaUpdate.validate_title : Option String → Except String (Option String)
  | none => .ok none
  | some v =>
      if v.length < 1 then .error "String should have at least 1 character"
      else if 200 < v.length then .error "String should have at most 200 characters"
      else if pyStrip v = "" then .error "Title cannot be empty or whitespace only"
      else .ok (some (pyStrip v))

/-- Validation of the doubly-optional title field of a PATCH body: an
absent field is untouched, a present one goes through
`IdeaUpdate.validate_title`. -/
def validateTitleField : Option (Option String) → Except String (Option (Option String))
  | none => .ok none
  | some v => (IdeaUpdate.validate_title v).map some

/-- Validation of the doubly-optional notes field of a PATCH body. -/
def validateNotesField : Option (Option String) → Except String (Option (Option String))
  | none => .ok none
  | some v => (validateNotes v).map some

/-- Pydantic validation of an `IdeaUpdate` body. -/
def IdeaUpdate.validate (u : IdeaUpdate) : Except String IdeaUpdate :=
  match validateTitleField u.title with
  | .error e => .error e
  | .ok t =>
      match validateNotesField u.notes with
      | .error e => .error e
      | .ok n => .ok { u with title := t, notes := n }

/-- The `IdeaResponse` schema: what a successful endpoint returns. -/
structure IdeaResponse where
  id : Nat
  user_id : String
  title : String
  notes : Option String
  stage : StageEnum
  priority : PriorityEnum
  tags : List String
  due_date : Option Nat
  created_at : Nat
  updated_at : Nat
  deriving DecidableEq, Repr

/-- Pydantic v2 validation of a value against `tags: list[str]`.  A
stored row carries a `str` (or `None`); pydantic deliberately refuses
to coerce either into a list, so both cases are validation errors. -/
def validateTagsList : Option String → Except String (List String)
  | none => .error "Input should be a valid list"
  | some _ => .error "Input should be a valid list"

/-- `IdeaResponse.model_validate(idea)` with `from_attributes`: each
field of the ORM row is validated against the response schema (the
inherited `IdeaBase` validators included). -/
def IdeaResponse.model_validate (r : Idea) : Except String IdeaResponse := do
  let t ← match r.title with
    | none => Except.error "Input should be a valid string"
    | some v => validateTitleBase v
  let n ← validateNotes r.notes
  let s ← match r.stage with
    | none => Except.error "Input should be a valid enumeration member"
    | some s => Except.ok s
  let p ← match r.priority with
    | none => Except.error "Input should be a valid enumeration member"
    | some p => Except.ok p
  let tg ← validateTagsList r.tags
  .ok { id := r.id, user_id := r.user_id, title := t, notes := n, stage := s,
        priority := p, tags := tg, due_date := r.due_date,
        created_at := r.created_at, updated_at := r.updated_at }

/-- The `IdeaListResponse` schema. -/
structure IdeaListResponse where
  items : List IdeaResponse
  total : Nat
  limit : Int
  offset : Nat
  has_more : Bool
  deriving DecidableEq, Repr

/-! Repository layer (`src/backend/src/repositories/idea_repository.py`). -/

/-- IdeaRepository.get_by_id_and_user: `select(Idea).where(Idea.id == id,
Idea.user_id == user_id)` with `scalar_one_or_none` (ids are the primary
key, so at most one row matches). -/
def IdeaRepository.get_by_id_and_user (st : Store) (id : Nat) (user_id : String) :
    Option Idea :=
  st.rows.find? fun r => r.id == id && r.user_id == user_id

/-- The `search` filter: `title ILIKE %s% OR notes ILIKE %s%`, skipped
when the parameter is absent or empty (`if search:`).  A NULL column is
never matched by ILIKE. -/
def searchFilter (search : Option String) (r : Idea) : Bool :=
  match search with
  | none => true
  | some s =>
      if s == "" then true
      else
        (match r.title with
          | some t => substrB (pyLower s).data (pyLower t).data
          | none => false)
        || (match r.notes with
          | some n => substrB (pyLower s).data (pyLower n).data
          | none => false)

/-- The `stage` filter: equality when present (`if stage:`). -/
def stageFilter (stage : Option StageEnum) (r : Idea) : Bool :=
  match stage with
  | none => true
  | some s => r.stage == some s

/-- The `priority` filter: equality when present (`if priority:`). -/
def priorityFilter (priority : Option PriorityEnum) (r : Idea) : Bool :=
  match priority with
  | none => true
  | some p => r.priority == some p

/-- Whether the tags filter is added to the query: `if tags:` skips it
for an absent parameter or an empty list; otherwise the loop
`for tag in tags: query = query.where(Idea.tags.contains([tag]))`
stacks one clause per tag. -/
def tagsFilterActive : Option (List String) → Bool
  | none => false
  | some ts => !ts.isEmpty

/-- The error raised when a tags-filtered query is executed: on the
`String` column, `.contains([tag])` compiles to
`tags LIKE '%' || :param || '%'` with the one-element Python list as
the bound parameter, which no driver can bind to a string parameter
(and under the migration's JSONB schema the LIKE does not even
compile), so `session.execute` raises instead of filtering. -/
def likeBindMsg : String :=
  "DBAPIError: a Python list was bound into the LIKE pattern of the tags filter"

/-- The WHERE clause shared by `get_by_user` and `count_by_user`
(`user_id` scoping plus the three optional filters that do execute;
the tags clauses never contribute to a result set because executing
them raises — see `likeBindMsg`). -/
def matchesFilters (user_id : String) (search : Option String)
    (stage : Option StageEnum) (priority : Option PriorityEnum) (r : Idea) : Bool :=
  r.user_id == user_id && searchFilter search r && stageFilter stage r
    && priorityFilter priority r

/-- Boolean linear order on strings used for ORDER BY on text columns. -/
def strLeB (a b : String) : Bool :=
  a == b || decide (a < b)

/-- ORDER BY comparison on a nullable column (stored rows of this app
never carry NULL in the sortable columns; NULLs sort first here). -/
def optLeB (le : α → α → Bool) : Option α → Option α → Bool
  | none, _ => true
  | some _, none => false
  | some a, some b => le a b

/-- Sort key comparison for `sort_by`; `getattr(Idea, sort_by,
Idea.created_at)` falls back to `created_at` for unknown names.  The
`stage` and `priority` columns are VARCHARs in the model, so they order
by their string values. -/
def fieldLeB (field : String) (a b : Idea) : Bool :=
  if field == "updated_at" then decide (a.updated_at ≤ b.updated_at)
  else if field == "title" then optLeB strLeB a.title b.title
  else if field == "priority" then
    optLeB (fun x y => strLeB x.toStr y.toStr) a.priority b.priority
  else if field == "stage" then
    optLeB (fun x y => strLeB x.toStr y.toStr) a.stage b.stage
  else decide (a.created_at ≤ b.created_at)

/-- Insertion step of the ORDER BY model. -/
def insertLe (le : α → α → Bool) (a : α) : List α → List α
  | [] => [a]
  | b :: bs => if le a b then a :: b :: bs else b :: insertLe le a bs

/-- ORDER BY modelled as an insertion sort over the comparison (the
claims never depend on the tie-breaking of the database sort). -/
def orderBy (le : α → α → Bool) : List α → List α
  | [] => []
  | a :: as => insertLe le a (orderBy le as)

/-- ORDER BY: ascending when `sort_order.lower() == "asc"`, else
descending. -/
def sortRows (sort_by sort_order : String) (rows : List Idea) : List Idea :=
  if pyLower sort_order == "asc" then orderBy (fieldLeB sort_by) rows
  else orderBy (fun a b => fieldLeB sort_by b a) rows

/-- IdeaRepository.get_by_user: filter, sort, then `LIMIT limit OFFSET
offset`.  The endpoint guarantees `offset ≥ 0` (`Query(ge=0)`), so the
offset arrives as a natural number.  When the tags filter is active the
query cannot be executed (`likeBindMsg`) and the call raises. -/
def IdeaRepository.get_by_user (st : Store) (user_id : String) (limit : Int)
    (offset : Nat) (search : Option String) (stage : Option StageEnum)
    (priority : Option PriorityEnum) (tags : Option (List String))
    (sort_by sort_order : String) : Except String (List Idea) :=
  if tagsFilterActive tags then .error likeBindMsg
  else
    .ok (((sortRows sort_by sort_order
        (st.rows.filter (matchesFilters user_id search stage priority))).drop
          offset).take limit.toNat)

/-- IdeaRepository.count_by_user: `SELECT count(*)` with the same
filters as `get_by_user`, raising likewise on an active tags filter. -/
def IdeaRepository.count_by_user (st : Store) (user_id : String)
    (search : Option String) (stage : Option StageEnum)
    (priority : Option PriorityEnum) (tags : Option (List String)) :
    Except String Nat :=
  if tagsFilterActive tags then .error likeBindMsg
  else .ok (st.rows.filter (matchesFilters user_id search stage priority)).length

/-- IdeaRepository.delete_by_id_and_user: fetch with ownership scoping,
return false when absent, otherwise delete the fetched row (by primary
key) and flush. -/
def IdeaRepository.delete_by_id_and_user (st : Store) (id : Nat)
    (user_id : String) : Bool × Store :=
  match IdeaRepository.get_by_id_and_user st id user_id with
  | none => (false, st)
  | some idea => (true, ⟨st.rows.filter fun r => r.id != idea.id⟩)

/-! Service layer (`src/backend/src/services/idea_service.py`). -/

/-- The error taxonomy surfaced by the HTTP boundary. -/
inductive ApiError
  | unauthenticated (detail : String)
  | forbidden (detail : String)
  | notFound (detail : String)
  | validation (detail : String)
  | internal (detail : String)
  deriving DecidableEq, Repr

/-- HTTP status of each error class. -/
def ApiError.status : ApiError → Nat
  | .unauthenticated _ => 401
  | .forbidden _ => 403
  | .notFound _ => 404
  | .validation _ => 422
  | .internal _ => 500

/-- The 404 detail string `f"Idea {idea_id} not found"`. -/
def notFoundMsg (id : Nat) : String :=
  "Idea " ++ toString id ++ " not found"

/-- A service call result: the outcome, the flushed session state, and
the number of repository calls performed. -/
abbrev ServiceOut (α : Type) : Type :=
  Except ApiError α × Store × Nat

/-- The comma join of the create/update paths:
`",".join(tags) if tags else ""`. -/
def joinTags (ts : List String) : String :=
  if ts.isEmpty then "" else pyJoinComma ts

/-- The `Idea(...)` constructed by IdeaService.create_idea: server-side
id (`uuid4()`), `user_id` forced from the verified caller, tags joined
to a comma-separated string, and the two separate
`datetime.now(timezone.utc)` readings `t1` (created_at) and `t2`
(updated_at). -/
def IdeaService.mkIdea (user_id : String) (d : IdeaCreate)
    (freshId t1 t2 : Nat) : Idea :=
  { id := freshId, user_id := user_id, title := some d.title,
    notes := d.notes, stage := some d.stage, priority := some d.priority,
    tags := some (joinTags d.tags), due_date := d.due_date,
    created_at := t1, updated_at := t2 }

/-- IdeaService.create_idea: build the row, flush it, then assemble the
response with `IdeaResponse.model_validate`; any exception propagates. -/
def IdeaService.create_idea (st : Store) (user_id : String) (d : IdeaCreate)
    (freshId t1 t2 : Nat) : ServiceOut IdeaResponse :=
  match Store.create st (IdeaService.mkIdea user_id d freshId t1 t2) with
  | .error e => (.error (.internal e), st, 1)
  | .ok (created, st') =>
      match IdeaResponse.model_validate created with
      | .error e => (.error (.internal e), st', 1)
      | .ok resp => (.ok resp, st', 1)

/-- IdeaService.get_idea: ownership-scoped fetch, 404 when absent or
foreign, response assembly otherwise. -/
def IdeaService.get_idea (st : Store) (idea_id : Nat) (user_id : String) :
    ServiceOut IdeaResponse :=
  match IdeaRepository.get_by_id_and_user st idea_id user_id with
  | none => (.error (.notFound (notFoundMsg idea_id)), st, 1)
  | some idea =>
      match IdeaResponse.model_validate idea with
      | .error e => (.error (.internal e), st, 1)
      | .ok resp => (.ok resp, st, 1)

/-- The field application loop of IdeaService.update_idea:
`update_data.model_dump(exclude_unset=True)` keeps exactly the fields
present in the request body (explicit nulls included), a present
non-null tags list is joined to a comma-separated string
(`"" `for the empty list), and each kept field is `setattr`-ed onto the
fetched row. -/
def IdeaService.applyPatch (idea : Idea) (u : IdeaUpdate) : Idea :=
  let idea := match u.title with
    | none => idea
    | some v => { idea with title := v }
  let idea := match u.notes with
    | none => idea
    | some v => { idea with notes := v }
  let idea := match u.stage with
    | none => idea
    | some v => { idea with stage := v }
  let idea := match u.priority with
    | none => idea
    | some v => { idea with priority := v }
  let idea := match u.tags with
    | none => idea
    | some none => { idea with tags := none }
    | some (some ts) => { idea with tags := some (joinTags ts) }
  match u.due_date with
  | none => idea
  | some v => { idea with due_date := v }

/-- IdeaService.update_idea: ownership-scoped fetch (404 when absent or
foreign), apply the patch, refresh `updated_at` with the
`datetime.now` reading `tNow`, flush, assemble the response. -/
def IdeaService.update_idea (st : Store) (idea_id : Nat) (user_id : String)
    (u : IdeaUpdate) (tNow : Nat) : ServiceOut IdeaResponse :=
  match IdeaRepository.get_by_id_and_user st idea_id user_id with
  | none => (.error (.notFound (notFoundMsg idea_id)), st, 1)
  | some idea =>
      match Store.update st { IdeaService.applyPatch idea u with updated_at := tNow } with
      | .error e => (.error (.internal e), st, 2)
      | .ok (updated, st') =>
          match IdeaResponse.model_validate updated with
          | .error e => (.error (.internal e), st', 2)
          | .ok resp => (.ok resp, st', 2)

/-- IdeaService.delete_idea: scoped delete, 404 when it reports false. -/
def IdeaService.delete_idea (st : Store) (idea_id : Nat) (user_id : String) :
    ServiceOut Unit :=
  match IdeaRepository.delete_by_id_and_user st idea_id user_id with
  | (false, st') => (.error (.notFound (notFoundMsg idea_id)), st', 1)
  | (true, st') => (.ok (), st', 1)

/-- The limit bound enforcement of IdeaService.list_ideas:
`limit = max(1, min(limit, 100))`. -/
def IdeaService.clampLimit (limit : Int) : Int :=
  max 1 (min limit 100)

/-- IdeaService.list_ideas: clamp the limit, fetch the page and the
total count (a raised repository error — e.g. an active tags filter —
propagates), assemble the item responses (the first validation failure
propagates), and build the pagination metadata with
`has_more = (offset + len(ideas)) < total`. -/
def IdeaService.list_ideas (st : Store) (user_id : String) (limit : Int)
    (offset : Nat) (search : Option String) (stage : Option StageEnum)
    (priority : Option PriorityEnum) (tags : Option (List String))
    (sort_by sort_order : String) : ServiceOut IdeaListResponse :=
  match IdeaRepository.get_by_user st user_id (IdeaService.clampLimit limit)
      offset search stage priority tags sort_by sort_order with
  | .error e => (.error (.internal e), st, 1)
  | .ok ideas =>
      match IdeaRepository.count_by_user st user_id search stage priority tags with
      | .error e => (.error (.internal e), st, 2)
      | .ok total =>
          match ideas.mapM IdeaResponse.model_validate with
          | .error e => (.error (.internal e), st, 2)
          | .ok items =>
              (.ok { items := items, total := total,
                     limit := IdeaService.clampLimit limit, offset := offset,
                     has_more := decide (offset + ideas.length < total) }, st, 2)

/-! Endpoint layer (`src/backend/src/api/v1/endpoints/ideas.py`) with the
session wrapper of `core/database.py`: parameter/body validation runs
before the handler (FastAPI), the handler checks `user_id !=
current_user` before any service call, and `get_session` commits the
flushed state on success and rolls back on any exception. -/

/-- Outcome of one HTTP request: the response (or error), the committed
database state, and how many repository calls were made. -/
structure EndpointOut (α : Type) where
  result : Except ApiError α
  committed : Store
  storeOps : Nat
  deriving DecidableEq, Repr

/-- The `get_session` wrapper: commit the flushed state when the handler
returned normally, roll back to the pre-request state when any
exception propagated. -/
def runRequest (st : Store) (out : ServiceOut α) : EndpointOut α :=
  { result := out.1,
    committed := match out.1 with
      | .ok _ => out.2.1
      | .error _ => st,
    storeOps := out.2.2 }

/-- POST `/{user_id}/ideas`. -/
def Endpoints.create_idea (user_id current_user : String) (body : IdeaCreate)
    (st : Store) (freshId t1 t2 : Nat) : EndpointOut IdeaResponse :=
  match IdeaCreate.validate body with
  | .error e => { result := .error (.validation e), committed := st, storeOps := 0 }
  | .ok d =>
      if user_id != current_user then
        { result := .error (.forbidden "Cannot create ideas for other users"),
          committed := st, storeOps := 0 }
      else
        runRequest st (IdeaService.create_idea st current_user d freshId t1 t2)

/-- The query parameters of GET `/{user_id}/ideas`, with their
declared defaults. -/
structure ListQuery where
  limit : Int := 20
  offset : Int := 0
  search : Option String := none
  stage : Option StageEnum := none
  priority : Option PriorityEnum := none
  tags : Option String := none
  sort : String := "created_at"
  order : String := "desc"
  deriving DecidableEq, Repr

/-- FastAPI validation of the list query parameters: `limit` must lie in
[1,100] (`Query(ge=1, le=100)`), `offset` must be ≥ 0 (`Query(ge=0)`),
and `sort`/`order` must match their regex patterns; violations are
rejected with 422 before the handler runs. -/
def ListQuery.validate (q : ListQuery) : Except String ListQuery :=
  if q.limit < 1 then
    .error "limit: Input should be greater than or equal to 1"
  else if 100 < q.limit then
    .error "limit: Input should be less than or equal to 100"
  else if q.offset < 0 then
    .error "offset: Input should be greater than or equal to 0"
  else if !(["created_at", "updated_at", "title", "priority", "stage"].contains q.sort) then
    .error "sort: String should match pattern"
  else if !(["asc", "desc"].contains q.order) then
    .error "order: String should match pattern"
  else
    .ok q

/-- The tags query parameter parsing of the list handler:
`[tag.strip() for tag in tags.split(",")] if tags else None`. -/
def parseTagsParam : Option String → Option (List String)
  | none => none
  | some s =>
      if s == "" then none
      else some ((pySplitComma s).map pyStrip)

/-- GET `/{user_id}/ideas`. -/
def Endpoints.list_ideas (user_id current_user : String) (q : ListQuery)
    (st : Store) : EndpointOut IdeaListResponse :=
  match ListQuery.validate q with
  | .error e => { result := .error (.validation e), committed := st, storeOps := 0 }
  | .ok q =>
      if user_id != current_user then
        { result := .error (.forbidden "Cannot access other users' ideas"),
          committed := st, storeOps := 0 }
      else
        runRequest st (IdeaService.list_ideas st current_user q.limit
          q.offset.toNat q.search q.stage q.priority (parseTagsParam q.tags)
          q.sort q.order)

/-- GET `/{user_id}/ideas/{idea_id}`. -/
def Endpoints.get_idea (user_id : String) (idea_id : Nat)
    (current_user : String) (st : Store) : EndpointOut IdeaResponse :=
  if user_id != current_user then
    { result := .error (.forbidden "Cannot access other users' ideas"),
      committed := st, storeOps := 0 }
  else
    runRequest st (IdeaService.get_idea st idea_id current_user)

/-- PATCH `/{user_id}/ideas/{idea_id}`. -/
def Endpoints.update_idea_partial (user_id : String) (idea_id : Nat)
    (current_user : String) (u : IdeaUpdate) (st : Store) (tNow : Nat) :
    EndpointOut IdeaResponse :=
  match IdeaUpdate.validate u with
  | .error e => { result := .error (.validation e), committed := st, storeOps := 0 }
  | .ok u =>
      if user_id != current_user then
        { result := .error (.forbidden "Cannot update other users' ideas"),
          committed := st, storeOps := 0 }
      else
        runRequest st (IdeaService.update_idea st idea_id current_user u tNow)

/-- PUT `/{user_id}/ideas/{idea_id}`: the `IdeaCreate` body is converted
into an `IdeaUpdate` with every field present
(`IdeaUpdate(**update_data.model_dump())`), so a PUT replaces all
fields (a `None` notes/due_date in the body becomes an explicit null). -/
def Endpoints.update_idea_full (user_id : String) (idea_id : Nat)
    (current_user : String) (body : IdeaCreate) (st : Store) (tNow : Nat) :
    EndpointOut IdeaResponse :=
  match IdeaCreate.validate body with
  | .error e => { result := .error (.validation e), committed := st, storeOps := 0 }
  | .ok d =>
      if user_id != current_user then
        { result := .error (.forbidden "Cannot update other users' ideas"),
          committed := st, storeOps := 0 }
      else
        let u : IdeaUpdate :=
          { title := some (some d.title), notes := some d.notes,
            stage := some (some d.stage), priority := some (some d.priority),
            tags := some (some d.tags), due_date := some d.due_date }
        runRequest st (IdeaService.update_idea st idea_id current_user u tNow)

/-- DELETE `/{user_id}/ideas/{idea_id}`. -/
def Endpoints.delete_idea (user_id : String) (idea_id : Nat)
    (current_user : String) (st : Store) : EndpointOut Unit :=
  if user_id != current_user then
    { result := .error (.forbidden "Cannot delete other users' ideas"),
      committed := st, storeOps := 0 }
  else
    runRequest st (IdeaService.delete_idea st idea_id current_user)

/-! Definitions used by the claim verification: the spec-side OR tag
semantics, the title invariant, and concrete inputs. -/

/-- Modelled from the spec: "optional tag membership (item matches if
it has *any* of the supplied tags — OR semantics)", read over the
comma-separated stored representation.  The repository docstring
promises the same ("tags: Filter by tags (OR logic)").  This is the
refinement target the repository filter is compared against. -/
def specTagMatchOr (r : Idea) (ts : List String) : Bool :=
  ts.any fun t => (pySplitComma (r.tags.getD "")).contains t

/-- A present title that is some normalised (stripped) non-empty
string. -/
def titleOK (o : Option String) : Prop :=
  ∃ v : String, o = some (pyStrip v) ∧ pyStrip v ≠ ""

/-- The title invariant over a whole store: every stored row carries a
normalised non-empty title. -/
def storeTitlesOK (st : Store) : Prop :=
  ∀ r ∈ st.rows, titleOK r.title

/-- An idea of user u1, used to check cross-user access. -/
def c1row : Idea :=
  { id := 11, user_id := "u1", title := some "Secret plan", notes := some "draft notes",
    stage := some .draft, priority := some .high, tags := some "blog",
    due_date := some 99, created_at := 1, updated_at := 2 }

def c1store : Store := ⟨[c1row]⟩

/-- An idea of u1 carrying exactly the tag `blog`. -/
def c3row : Idea :=
  { id := 31, user_id := "u1", title := some "Post", notes := none,
    stage := some .idea, priority := some .medium, tags := some "blog",
    due_date := none, created_at := 0, updated_at := 0 }

def c3store : Store := ⟨[c3row]⟩

def c5row : Idea :=
  { id := 51, user_id := "u1", title := some "Entry", notes := none,
    stage := some .idea, priority := some .medium, tags := some "",
    due_date := none, created_at := 0, updated_at := 0 }

def c5store : Store := ⟨[c5row]⟩

/-- The empty page produced for user u2 against `c5store`. -/
def c5resp : IdeaListResponse :=
  { items := [], total := 0, limit := 1, offset := 3, has_more := false }

def c6row : Idea :=
  { id := 61, user_id := "u1", title := some "Video script", notes := some "outline",
    stage := some .outline, priority := some .medium, tags := some "blog,ai",
    due_date := some 7, created_at := 3, updated_at := 3 }

def c6store : Store := ⟨[c6row]⟩

/-- The create body of the spec round-trip property:
`tags=["blog","ai"]`. -/
def c7data : IdeaCreate :=
  { title := "Roundtrip", stage := .idea, priority := .medium, tags := ["blog", "ai"] }

/-- The create body of the spec scenario: `{title:"Top 5 AI Tools",
stage:"idea", priority:"high", tags:["blog","ai"]}`. -/
def c8data : IdeaCreate :=
  { title := "Top 5 AI Tools", stage := .idea, priority := .high, tags := ["blog", "ai"] }

def c9row : Idea :=
  { id := 91, user_id := "u1", title := some "Keep me", notes := none,
    stage := some .idea, priority := some .low, tags := some "",
    due_date := none, created_at := 0, updated_at := 0 }

def c9store : Store := ⟨[c9row]⟩

/-- The PATCH body `{"title": null}`: the field is present with an
explicit null. -/
def titleNullPatch : IdeaUpdate := { title := some none }

def c10row : Idea :=
  { id := 101, user_id := "u1", title := some "Stays", notes := some "text",
    stage := some .idea, priority := some .low, tags := some "a,b",
    due_date := some 5, created_at := 0, updated_at := 0 }

def c10store : Store := ⟨[c10row]⟩

/-! Helper lemmas shared by the claim proofs. -/

/-- On the `Except` monad, `mapM` returning `ok` preserves length. -/
theorem mapM_ok_length {α β : Type} (f : α → Except String β) :
    ∀ (l : List α) (l2 : List β), l.mapM f = Except.ok l2 → l2.length = l.length := by
  intro l
  induction l with
  | nil =>
      intro l2 h
      simp only [List.mapM_nil] at h
      cases h
      rfl
  | cons a as ih =>
      intro l2 h
      rw [List.mapM_cons] at h
      cases hfa : f a with
      | error e => rw [hfa] at h; exact absurd h (by simp [Bind.bind, Except.bind])
      | ok b =>
          rw [hfa] at h
          cases hms : as.mapM f with
          | error e => rw [hms] at h; exact absurd h (by simp [Bind.bind, Except.bind])
          | ok bs =>
              rw [hms] at h
              simp only [Bind.bind, Except.bind, pure, Except.pure, Except.ok.injEq] at h
              subst h
              simp [ih bs hms]

/-- The scoped lookup finds nothing when no row has both the id and the
owner. -/
theorem scoped_find_none (rows : List Idea) (i : Nat) (uid : String)
    (h : ∀ r ∈ rows, r.id = i → r.user_id ≠ uid) :
    rows.find? (fun r => r.id == i && r.user_id == uid) = none := by
  rw [List.find?_eq_none]
  intro r hr
  simp only [Bool.and_eq_true, beq_iff_eq, not_and]
  intro h1 h2
  exact h r hr h1 h2

/-- A successful base title validation returns the stripped title,
which is non-empty. -/
theorem validateTitleBase_ok (v w : String) (h : validateTitleBase v = .ok w) :
    w = pyStrip v ∧ pyStrip v ≠ "" := by
  unfold validateTitleBase at h
  by_cases h1 : v.length < 1
  · simp [h1] at h
  · by_cases h2 : 200 < v.length
    · simp [h1, h2] at h
    · by_cases h3 : pyStrip v = ""
      · simp [h1, h2, h3] at h
      · simp [h1, h2, h3] at h
        exact ⟨h.symm, h3⟩

/-- Whether an `Except` value is an error. -/
def errB : Except String α → Bool
  | .error _ => true
  | .ok _ => false

/-- A title that strips to the empty string is rejected by both title
validators. -/
theorem empty_title_rejected (v : String) (hv : pyStrip v = "") :
    errB (validateTitleBase v) = true
      ∧ errB (IdeaUpdate.validate_title (some v)) = true := by
  constructor
  · unfold validateTitleBase
    by_cases h1 : v.length < 1
    · simp [h1, errB]
    · by_cases h2 : 200 < v.length
      · simp [h1, h2, errB]
      · simp [h1, h2, hv, errB]
  · unfold IdeaUpdate.validate_title
    by_cases h1 : v.length < 1
    · simp [h1, errB]
    · by_cases h2 : 200 < v.length
      · simp [h1, h2, errB]
      · simp [h1, h2, hv, errB]

/-- A successful update title validation yields either the explicit
null or a normalised non-empty title. -/
theorem validate_title_upd_ok (vo : Option String) (w : Option String)
    (h : IdeaUpdate.validate_title vo = .ok w) :
    w = none ∨ titleOK w := by
  cases vo with
  | none =>
      left
      simp only [IdeaUpdate.validate_title] at h
      cases h
      rfl
  | some v =>
      right
      unfold IdeaUpdate.validate_title at h
      by_cases h1 : v.length < 1
      · simp [h1] at h
      · by_cases h2 : 200 < v.length
        · simp [h1, h2] at h
        · by_cases h3 : pyStrip v = ""
          · simp [h1, h2, h3] at h
          · simp [h1, h2, h3] at h
            exact ⟨v, h.symm, h3⟩

/-- A successful title-field validation yields an absent field, an
explicit null, or a normalised non-empty title. -/
theorem validateTitleField_ok (vo : Option (Option String))
    (t : Option (Option String)) (h : validateTitleField vo = .ok t) :
    t = none ∨ t = some none ∨ ∃ w, t = some (some w) ∧ titleOK (some w) := by
  cases vo with
  | none =>
      left
      simp only [validateTitleField] at h
      cases h
      rfl
  | some v =>
      right
      simp only [validateTitleField] at h
      cases ht : IdeaUpdate.validate_title v with
      | error e => rw [ht] at h; exact absurd h (by simp [Except.map])
      | ok w =>
          rw [ht] at h
          simp only [Except.map, Except.ok.injEq] at h
          cases validate_title_upd_ok v w ht with
          | inl hw => left; rw [← h, hw]
          | inr hw =>
              right
              obtain ⟨x, hx, hne⟩ := hw
              exact ⟨pyStrip x, by rw [← h, hx], x, rfl, hne⟩

/-- Shape of the validated PATCH body: the title field is absent, an
explicit null, or a normalised non-empty title, and the stage,
priority, tags and due_date fields pass through unchanged. -/
theorem validate_upd_shape (u u2 : IdeaUpdate)
    (h : IdeaUpdate.validate u = .ok u2) :
    (u2.title = none ∨ u2.title = some none
        ∨ ∃ w, u2.title = some (some w) ∧ titleOK (some w))
      ∧ u2.stage = u.stage ∧ u2.priority = u.priority
      ∧ u2.tags = u.tags ∧ u2.due_date = u.due_date := by
  unfold IdeaUpdate.validate at h
  cases ht : validateTitleField u.title with
  | error e => rw [ht] at h; exact absurd h (by simp)
  | ok t =>
      rw [ht] at h
      cases hn : validateNotesField u.notes with
      | error e => rw [hn] at h; exact absurd h (by simp)
      | ok n2 =>
          rw [hn] at h
          simp only [Except.ok.injEq] at h
          subst h
          exact ⟨validateTitleField_ok u.title t ht, rfl, rfl, rfl, rfl⟩

/-- A successful `IdeaCreate` validation normalises the title (strip,
non-empty) and keeps the remaining fields. -/
theorem validate_create_shape (d d2 : IdeaCreate)
    (h : IdeaCreate.validate d = .ok d2) :
    d2.title = pyStrip d.title ∧ pyStrip d.title ≠ ""
      ∧ d2.stage = d.stage ∧ d2.priority = d.priority
      ∧ d2.tags = d.tags ∧ d2.due_date = d.due_date := by
  unfold IdeaCreate.validate at h
  cases ht : validateTitleBase d.title with
  | error e => rw [ht] at h; exact absurd h (by simp)
  | ok t =>
      rw [ht] at h
      obtain ⟨htt, hne⟩ := validateTitleBase_ok d.title t ht
      cases hn : validateNotes d.notes with
      | error e => rw [hn] at h; exact absurd h (by simp)
      | ok n2 =>
          rw [hn] at h
          simp only [Except.ok.injEq] at h
          subst h
          exact ⟨htt ▸ rfl, hne, rfl, rfl, rfl, rfl⟩

/-! Claim theorems. -/

/-- Claim C1 (confirmed): for an idea owned by A, invoking the get,
update or delete service as B ≠ A yields the NotFound error (404) with
the stored state unchanged, and the outcome equals the outcome on a
store where no idea with that id exists at all — so nothing about A's
idea is revealed. -/
theorem C1_cross_user_access_indistinguishable_from_absent
    (st1 st2 : Store) (i : Nat) (A B : String) (hBA : B ≠ A)
    (hown : ∀ r ∈ st1.rows, r.id = i → r.user_id = A)
    (habsent : ∀ r ∈ st2.rows, r.id ≠ i)
    (u : IdeaUpdate) (t : Nat) :
    IdeaService.get_idea st1 i B = (.error (.notFound (notFoundMsg i)), st1, 1)
      ∧ IdeaService.update_idea st1 i B u t
        = (.error (.notFound (notFoundMsg i)), st1, 1)
      ∧ IdeaService.delete_idea st1 i B
        = (.error (.notFound (notFoundMsg i)), st1, 1)
      ∧ (IdeaService.get_idea st1 i B).1 = (IdeaService.get_idea st2 i B).1
      ∧ (IdeaService.update_idea st1 i B u t).1
        = (IdeaService.update_idea st2 i B u t).1
      ∧ (IdeaService.delete_idea st1 i B).1
        = (IdeaService.delete_idea st2 i B).1 := by
  have h1 : st1.rows.find? (fun r => r.id == i && r.user_id == B) = none := by
    refine scoped_find_none _ _ _ ?_
    intro r hr hid
    rw [hown r hr hid]
    exact Ne.symm hBA
  have h2 : st2.rows.find? (fun r => r.id == i && r.user_id == B) = none := by
    refine scoped_find_none _ _ _ ?_
    intro r hr hid
    exact absurd hid (habsent r hr)
  refine ⟨?_, ?_, ?_, ?_, ?_, ?_⟩ <;>
    simp [IdeaService.get_idea, IdeaService.update_idea, IdeaService.delete_idea,
      IdeaRepository.get_by_id_and_user, IdeaRepository.delete_by_id_and_user, h1, h2]

/-- Witness for C1 at a concrete store: u2 requesting u1's idea 11. -/
theorem C1_cross_user_witness :
    IdeaService.get_idea c1store 11 "u2"
      = (.error (.notFound (notFoundMsg 11)), c1store, 1)
      ∧ IdeaService.update_idea c1store 11 "u2" {} 0
        = (.error (.notFound (notFoundMsg 11)), c1store, 1)
      ∧ IdeaService.delete_idea c1store 11 "u2"
        = (.error (.notFound (notFoundMsg 11)), c1store, 1)
      ∧ (IdeaService.get_idea c1store 11 "u2").1
        = (IdeaService.get_idea emptyStore 11 "u2").1
      ∧ (IdeaService.update_idea c1store 11 "u2" {} 0).1
        = (IdeaService.update_idea emptyStore 11 "u2" {} 0).1
      ∧ (IdeaService.delete_idea c1store 11 "u2").1
        = (IdeaService.delete_idea emptyStore 11 "u2").1 :=
  C1_cross_user_access_indistinguishable_from_absent c1store emptyStore 11
    "u1" "u2" (by decide) (by decide) (by decide) {} 0

/-- Claim C3 (code bug): tag filtering never filters at all.  The spec
and the repository's own docstring promise OR membership semantics,
but `Idea.tags.contains([tag])` on the `String` column binds the
one-element Python list itself into the LIKE pattern, so executing any
tags-filtered list or count query raises (surfaced as HTTP 500).  The
idea of u1 carrying the tag `blog` — which the documented OR semantics
would include for the filter `["blog","ai"]` — is never included nor
excluded; even the single-tag filter raises, and the same pipeline
without the tags filter returns the row, isolating the tags clause as
the cause. -/
theorem C3_tag_filter_raises_instead_of_or :
    specTagMatchOr c3row ["blog", "ai"] = true
      ∧ IdeaRepository.get_by_user c3store "u1" 20 0 none none none
          (some ["blog", "ai"]) "created_at" "desc" = .error likeBindMsg
      ∧ IdeaRepository.count_by_user c3store "u1" none none none
          (some ["blog", "ai"]) = .error likeBindMsg
      ∧ IdeaRepository.get_by_user c3store "u1" 20 0 none none none
          (some ["blog"]) "created_at" "desc" = .error likeBindMsg
      ∧ (IdeaService.list_ideas c3store "u1" 20 0 none none none
          (some ["blog", "ai"]) "created_at" "desc").1
        = .error (.internal likeBindMsg)
      ∧ IdeaRepository.get_by_user c3store "u1" 20 0 none none none
          none "created_at" "desc" = .ok [c3row] := by
  decide

/-- Claim C4, counterexample: a list request with `limit=0` (or 101) is
rejected by the endpoint's query validation with a 422 — it is not
clamped and does not succeed, contradicting the claim. -/
theorem C4_limit_zero_rejected_not_clamped :
    (Endpoints.list_ideas "u1" "u1" { limit := 0 } emptyStore).result
      = .error (.validation "limit: Input should be greater than or equal to 1")
      ∧ ApiError.status
          (.validation "limit: Input should be greater than or equal to 1") = 422
      ∧ (Endpoints.list_ideas "u1" "u1" { limit := 101 } emptyStore).result
        = .error (.validation "limit: Input should be less than or equal to 100") := by
  decide

/-- Claim C4 (corrected): at the HTTP boundary a limit outside [1,100]
is rejected as a validation error (422), exactly like a negative
offset; the clamp `max(1, min(limit, 100))` lives in
`IdeaService.list_ideas` and only matters for direct service calls,
where it does keep the limit within [1,100]. -/
theorem C4_limit_validation_and_service_clamp (pu cu : String) (q : ListQuery)
    (st : Store) :
    (q.limit < 1 →
        Endpoints.list_ideas pu cu q st
          = { result := .error
                (.validation "limit: Input should be greater than or equal to 1"),
              committed := st, storeOps := 0 })
      ∧ (100 < q.limit →
        Endpoints.list_ideas pu cu q st
          = { result := .error
                (.validation "limit: Input should be less than or equal to 100"),
              committed := st, storeOps := 0 })
      ∧ (1 ≤ q.limit → q.limit ≤ 100 → q.offset < 0 →
        Endpoints.list_ideas pu cu q st
          = { result := .error
                (.validation "offset: Input should be greater than or equal to 0"),
              committed := st, storeOps := 0 })
      ∧ 1 ≤ IdeaService.clampLimit q.limit
      ∧ IdeaService.clampLimit q.limit ≤ 100 := by
  refine ⟨?_, ?_, ?_, ?_, ?_⟩
  · intro h
    simp [Endpoints.list_ideas, ListQuery.validate, h]
  · intro h
    have h1 : ¬q.limit < 1 := by omega
    simp [Endpoints.list_ideas, ListQuery.validate, h, h1]
  · intro ha hb h
    have h1 : ¬q.limit < 1 := by omega
    have h2 : ¬100 < q.limit := by omega
    simp [Endpoints.list_ideas, ListQuery.validate, h, h1, h2]
  · exact le_max_left 1 _
  · exact max_le (by norm_num) (min_le_right _ _)

/-- Witness for C4 at `limit = 0`. -/
theorem C4_limit_validation_witness :
    Endpoints.list_ideas "a" "a" { limit := 0 } emptyStore
      = { result := .error
            (.validation "limit: Input should be greater than or equal to 1"),
          committed := emptyStore, storeOps := 0 }
      ∧ 1 ≤ IdeaService.clampLimit 0 ∧ IdeaService.clampLimit 0 ≤ 100 :=
  ⟨(C4_limit_validation_and_service_clamp "a" "a" { limit := 0 } emptyStore).1
      (by decide),
    (C4_limit_validation_and_service_clamp "a" "a" { limit := 0 } emptyStore).2.2.2.1,
    (C4_limit_validation_and_service_clamp "a" "a" { limit := 0 } emptyStore).2.2.2.2⟩

/-- Claim C6 (code bug): the PATCH application itself is frame-correct
— the flushed row differs from the original in exactly `priority` and
`updated_at` — but the response assembly then fails on the tags field,
so the request answers 500 and the transaction is rolled back: the
committed store is unchanged and no priority-only PATCH ever
succeeds. -/
theorem C6_patch_priority_frame_then_rollback :
    (IdeaService.update_idea c6store 61 "u1"
        { priority := some (some .high) } 9).2.1.rows
      = [{ c6row with priority := some .high, updated_at := 9 }]
      ∧ (Endpoints.update_idea_partial "u1" 61 "u1"
          { priority := some (some .high) } c6store 9).result
        = .error (.internal "Input should be a valid list")
      ∧ (Endpoints.update_idea_partial "u1" 61 "u1"
          { priority := some (some .high) } c6store 9).committed = c6store := by
  decide

/-- Claim C7 (code bug): creating an idea with `tags=["blog","ai"]`
stores the comma-joined string `"blog,ai"`; the response schema
requires a list, so the create response and any subsequent read of the
idea fail with a response-validation error (HTTP 500) instead of
returning the tags, and the endpoint rolls the insert back — the
round-trip never yields the tags. -/
theorem C7_tags_roundtrip_broken :
    (IdeaService.mkIdea "u1" c7data 7 0 0).tags = some "blog,ai"
      ∧ (IdeaService.create_idea emptyStore "u1" c7data 7 0 0).1
          = .error (.internal "Input should be a valid list")
      ∧ (IdeaService.create_idea emptyStore "u1" c7data 7 0 0).2.1.rows
          = [IdeaService.mkIdea "u1" c7data 7 0 0]
      ∧ (IdeaService.get_idea
            (IdeaService.create_idea emptyStore "u1" c7data 7 0 0).2.1 7 "u1").1
          = .error (.internal "Input should be a valid list")
      ∧ (Endpoints.create_idea "u1" "u1" c7data emptyStore 7 0 0).committed
          = emptyStore := by
  decide

/-- Claim C8 (code bug): the spec's create scenario does not return
201.  The constructed row does get a server-side id and the caller's
identity as owner, but `created_at` and `updated_at` come from two
separate clock readings (here 3 and 4) and need not be equal, and the
response assembly fails on the tags field, so the request answers 500
and commits nothing. -/
theorem C8_create_scenario_not_successful :
    (IdeaService.mkIdea "u1" c8data 8 3 4).id = 8
      ∧ (IdeaService.mkIdea "u1" c8data 8 3 4).user_id = "u1"
      ∧ (IdeaService.mkIdea "u1" c8data 8 3 4).created_at
          ≠ (IdeaService.mkIdea "u1" c8data 8 3 4).updated_at
      ∧ (Endpoints.create_idea "u1" "u1" c8data emptyStore 8 3 4).result
          = .error (.internal "Input should be a valid list")
      ∧ (Endpoints.create_idea "u1" "u1" c8data emptyStore 8 3 4).committed
          = emptyStore := by
  decide

/-- Claim C2, counterexample: a request addressing another user's
namespace (`u2` with a token for `u1`) but carrying `limit=0` is
answered 422 by the parameter validation, which runs before the
handler's authorization check — not 403 as the claim states for every
mismatched request. -/
theorem C2_mismatch_with_bad_limit_is_422 :
    (Endpoints.list_ideas "u2" "u1" { limit := 0 } emptyStore).result
      = .error (.validation "limit: Input should be greater than or equal to 1")
      ∧ ApiError.status
          (.validation "limit: Input should be greater than or equal to 1") = 422
      ∧ (Endpoints.list_ideas "u2" "u1" { limit := 0 } emptyStore).storeOps = 0 := by
  decide

/-- Claim C2 (corrected): whenever the path user differs from the
verified token subject, no endpoint performs any store operation and
nothing is committed; when the request's parameters and body pass
validation the response is the Forbidden error (403).  A request
failing parameter validation is instead rejected 422 (see the
counterexample), still without touching the store. -/
theorem C2_identity_mismatch_no_store_access (pu cu : String) (hne : pu ≠ cu)
    (st : Store) (body : IdeaCreate) (q : ListQuery) (i : Nat) (u : IdeaUpdate)
    (fid t1 t2 tN : Nat) :
    ((Endpoints.create_idea pu cu body st fid t1 t2).storeOps = 0
      ∧ (Endpoints.create_idea pu cu body st fid t1 t2).committed = st
      ∧ (∀ d, IdeaCreate.validate body = .ok d →
          (Endpoints.create_idea pu cu body st fid t1 t2).result
            = .error (.forbidden "Cannot create ideas for other users")))
    ∧ ((Endpoints.list_ideas pu cu q st).storeOps = 0
      ∧ (Endpoints.list_ideas pu cu q st).committed = st
      ∧ (∀ q2, ListQuery.validate q = .ok q2 →
          (Endpoints.list_ideas pu cu q st).result
            = .error (.forbidden "Cannot access other users' ideas")))
    ∧ (Endpoints.get_idea pu i cu st
        = { result := .error (.forbidden "Cannot access other users' ideas"),
            committed := st, storeOps := 0 })
    ∧ ((Endpoints.update_idea_partial pu i cu u st tN).storeOps = 0
      ∧ (Endpoints.update_idea_partial pu i cu u st tN).committed = st
      ∧ (∀ u2, IdeaUpdate.validate u = .ok u2 →
          (Endpoints.update_idea_partial pu i cu u st tN).result
            = .error (.forbidden "Cannot update other users' ideas")))
    ∧ ((Endpoints.update_idea_full pu i cu body st tN).storeOps = 0
      ∧ (Endpoints.update_idea_full pu i cu body st tN).committed = st
      ∧ (∀ d, IdeaCreate.validate body = .ok d →
          (Endpoints.update_idea_full pu i cu body st tN).result
            = .error (.forbidden "Cannot update other users' ideas")))
    ∧ (Endpoints.delete_idea pu i cu st
        = { result := .error (.forbidden "Cannot delete other users' ideas"),
            committed := st, storeOps := 0 }) := by
  have hb : (pu != cu) = true := by
    simp only [bne_iff_ne, ne_eq]
    exact hne
  refine ⟨?_, ?_, ?_, ?_, ?_, ?_⟩
  · cases hv : IdeaCreate.validate body with
    | error e => refine ⟨?_, ?_, ?_⟩ <;> simp [Endpoints.create_idea, hv]
    | ok d => refine ⟨?_, ?_, ?_⟩ <;> simp [Endpoints.create_idea, hv, hb]
  · cases hv : ListQuery.validate q with
    | error e => refine ⟨?_, ?_, ?_⟩ <;> simp [Endpoints.list_ideas, hv]
    | ok q2 => refine ⟨?_, ?_, ?_⟩ <;> simp [Endpoints.list_ideas, hv, hb]
  · simp [Endpoints.get_idea, hb]
  · cases hv : IdeaUpdate.validate u with
    | error e => refine ⟨?_, ?_, ?_⟩ <;> simp [Endpoints.update_idea_partial, hv]
    | ok u2 => refine ⟨?_, ?_, ?_⟩ <;> simp [Endpoints.update_idea_partial, hv, hb]
  · cases hv : IdeaCreate.validate body with
    | error e => refine ⟨?_, ?_, ?_⟩ <;> simp [Endpoints.update_idea_full, hv]
    | ok d => refine ⟨?_, ?_, ?_⟩ <;> simp [Endpoints.update_idea_full, hv, hb]
  · simp [Endpoints.delete_idea, hb]

/-- Witness for C2: `u2` addressed with a token for `u1`. -/
theorem C2_identity_mismatch_witness :
    Endpoints.get_idea "u2" 1 "u1" emptyStore
      = { result := .error (.forbidden "Cannot access other users' ideas"),
          committed := emptyStore, storeOps := 0 }
      ∧ (Endpoints.list_ideas "u2" "u1" {} emptyStore).storeOps = 0
      ∧ (Endpoints.create_idea "u2" "u1" { title := "t" } emptyStore 0 0 0).committed
        = emptyStore :=
  ⟨(C2_identity_mismatch_no_store_access "u2" "u1" (by decide) emptyStore
      { title := "t" } {} 1 {} 0 0 0 0).2.2.1,
   (C2_identity_mismatch_no_store_access "u2" "u1" (by decide) emptyStore
      { title := "t" } {} 1 {} 0 0 0 0).2.1.1,
   (C2_identity_mismatch_no_store_access "u2" "u1" (by decide) emptyStore
      { title := "t" } {} 1 {} 0 0 0 0).1.2.1⟩

/-- Claim C5 (confirmed): any successful list result satisfies the
pagination invariant: `has_more` equals `offset + returned_count <
total`, and the returned page never exceeds the (clamped) limit
reported in the metadata. -/
theorem C5_pagination_invariant
    (st st2 : Store) (uid : String) (limit : Int) (offset n : Nat)
    (search : Option String) (stage : Option StageEnum)
    (priority : Option PriorityEnum) (tags : Option (List String))
    (sb so : String) (resp : IdeaListResponse)
    (h : IdeaService.list_ideas st uid limit offset search stage priority tags sb so
      = (.ok resp, st2, n)) :
    resp.has_more = decide (resp.offset + resp.items.length < resp.total)
      ∧ (resp.items.length : Int) ≤ resp.limit := by
  simp only [IdeaService.list_ideas] at h
  cases hg : IdeaRepository.get_by_user st uid (IdeaService.clampLimit limit) offset
      search stage priority tags sb so with
  | error e =>
      simp only [hg] at h
      exact absurd h (by simp)
  | ok ideas =>
      simp only [hg] at h
      cases hc : IdeaRepository.count_by_user st uid search stage priority tags with
      | error e =>
          simp only [hc] at h
          exact absurd h (by simp)
      | ok total =>
          simp only [hc] at h
          cases hm : ideas.mapM IdeaResponse.model_validate with
          | error e =>
              simp only [hm] at h
              exact absurd h (by simp)
          | ok items =>
              simp only [hm] at h
              have hlen := mapM_ok_length IdeaResponse.model_validate _ items hm
              simp only [Prod.mk.injEq, Except.ok.injEq] at h
              obtain ⟨hresp, -, -⟩ := h
              subst hresp
              constructor
              · simp [hlen]
              · have htake : ideas.length ≤ (IdeaService.clampLimit limit).toNat := by
                  unfold IdeaRepository.get_by_user at hg
                  by_cases ht : tagsFilterActive tags = true
                  · rw [if_pos ht] at hg
                    cases hg
                  · rw [if_neg ht] at hg
                    simp only [Except.ok.injEq] at hg
                    rw [← hg, List.length_take]
                    exact inf_le_left
                have h0 : (0 : Int) ≤ IdeaService.clampLimit limit :=
                  le_trans (by norm_num) (le_max_left 1 _)
                have hcast : (items.length : Int)
                    ≤ ((IdeaService.clampLimit limit).toNat : Int) := by
                  exact_mod_cast hlen ▸ htake
                simpa [Int.toNat_of_nonneg h0] using hcast

/-- Witness for C5: an empty page with a positive offset. -/
theorem C5_pagination_invariant_witness :
    c5resp.has_more = decide (c5resp.offset + c5resp.items.length < c5resp.total)
      ∧ (c5resp.items.length : Int) ≤ c5resp.limit :=
  C5_pagination_invariant c5store c5store "u2" (-5) 3 2 none none none none
    "created_at" "desc" c5resp (by decide)

/-- The patch application leaves the title untouched when the title
field is absent from the body. -/
theorem applyPatch_title_none (idea : Idea) (u : IdeaUpdate) (h : u.title = none) :
    (IdeaService.applyPatch idea u).title = idea.title := by
  obtain ⟨tF, nF, sF, pF, gF, dF⟩ := u
  simp only at h
  subst h
  cases nF <;> cases sF <;> cases pF <;> cases dF <;> cases gF <;>
    first
      | rfl
      | (rename_i g; cases g <;> rfl)

/-- The patch application writes exactly the supplied title value when
the title field is present in the body. -/
theorem applyPatch_title_some (idea : Idea) (u : IdeaUpdate) (w : Option String)
    (h : u.title = some w) :
    (IdeaService.applyPatch idea u).title = w := by
  obtain ⟨tF, nF, sF, pF, gF, dF⟩ := u
  simp only at h
  subst h
  cases nF <;> cases sF <;> cases pF <;> cases dF <;> cases gF <;>
    first
      | rfl
      | (rename_i g; cases g <;> rfl)

/-- Projection of the flushed store out of the create service call:
the response-assembly step never changes it. -/
theorem create_idea_store_eq (st : Store) (uidC : String) (d2 : IdeaCreate)
    (fid t1 t2 : Nat) :
    (IdeaService.create_idea st uidC d2 fid t1 t2).2.1
      = match Store.create st (IdeaService.mkIdea uidC d2 fid t1 t2) with
        | .error _ => st
        | .ok (_, st') => st' := by
  unfold IdeaService.create_idea
  split
  · rfl
  · rename_i created st' heq
    cases IdeaResponse.model_validate created <;> rfl

theorem update_idea_store_eq (st : Store) (i : Nat) (uid : String)
    (u : IdeaUpdate) (t : Nat) :
    (IdeaService.update_idea st i uid u t).2.1
      = match IdeaRepository.get_by_id_and_user st i uid with
        | none => st
        | some idea =>
            match Store.update st
                { IdeaService.applyPatch idea u with updated_at := t } with
            | .error _ => st
            | .ok (_, st') => st' := by
  unfold IdeaService.update_idea
  split
  · rfl
  · rename_i idea heq
    split
    · rfl
    · rename_i updated st' heq2
      cases IdeaResponse.model_validate updated <;> rfl

theorem delete_idea_store_eq (st : Store) (i : Nat) (uid : String) :
    (IdeaService.delete_idea st i uid).2.1
      = (IdeaRepository.delete_by_id_and_user st i uid).2 := by
  unfold IdeaService.delete_idea
  split
  · rename_i st2 heq
    rw [heq]
  · rename_i st2 heq
    rw [heq]

/-- Creation preserves the title invariant when the supplied title is a
normalised non-empty string. -/
theorem create_preserves_titles (st : Store) (uidC : String) (d2 : IdeaCreate)
    (fid t1 t2 : Nat) (hd : titleOK (some d2.title)) (hst : storeTitlesOK st) :
    storeTitlesOK (IdeaService.create_idea st uidC d2 fid t1 t2).2.1 := by
  rw [create_idea_store_eq]
  cases hc : Store.create st (IdeaService.mkIdea uidC d2 fid t1 t2) with
  | error e => exact hst
  | ok pr =>
      obtain ⟨created, st'⟩ := pr
      show storeTitlesOK st'
      unfold Store.create at hc
      by_cases hdup :
          !(st.rows.all fun r => r.id != (IdeaService.mkIdea uidC d2 fid t1 t2).id)
      · rw [if_pos hdup] at hc; cases hc
      · rw [if_neg hdup] at hc
        by_cases hok : (IdeaService.mkIdea uidC d2 fid t1 t2).rowNotNullOk = true
        · rw [if_pos hok] at hc
          simp only [Except.ok.injEq, Prod.mk.injEq] at hc
          rw [← hc.2]
          intro r hr
          rcases List.mem_append.mp hr with hmem | hmem
          · exact hst r hmem
          · rw [List.mem_singleton.mp hmem]
            exact hd
        · rw [if_neg hok] at hc; cases hc

/-- Update preserves the title invariant when the validated patch's
title field is absent, an explicit null (refused by the store), or a
normalised non-empty title. -/
theorem update_preserves_titles (st : Store) (i : Nat) (uid : String)
    (u2 : IdeaUpdate) (t : Nat)
    (hu : u2.title = none ∨ u2.title = some none
      ∨ ∃ w, u2.title = some (some w) ∧ titleOK (some w))
    (hst : storeTitlesOK st) :
    storeTitlesOK (IdeaService.update_idea st i uid u2 t).2.1 := by
  rw [update_idea_store_eq]
  cases hf : IdeaRepository.get_by_id_and_user st i uid with
  | none => exact hst
  | some idea =>
      have hidea : idea ∈ st.rows := by
        unfold IdeaRepository.get_by_id_and_user at hf
        exact List.mem_of_find?_eq_some hf
      show storeTitlesOK
        (match Store.update st
            { IdeaService.applyPatch idea u2 with updated_at := t } with
          | .error _ => st
          | .ok (_, st') => st')
      cases hupd : Store.update st
          { IdeaService.applyPatch idea u2 with updated_at := t } with
      | error e => exact hst
      | ok pr =>
          obtain ⟨updated, st'⟩ := pr
          show storeTitlesOK st'
          unfold Store.update at hupd
          by_cases hok :
              ({ IdeaService.applyPatch idea u2 with updated_at := t } : Idea).rowNotNullOk
                = true
          · rw [if_pos hok] at hupd
            simp only [Except.ok.injEq, Prod.mk.injEq] at hupd
            have hptitle :
                titleOK
                  ({ IdeaService.applyPatch idea u2 with updated_at := t } : Idea).title := by
              rcases hu with hnone | hnull | ⟨w, hw, hwOK⟩
              · have ht := applyPatch_title_none idea u2 hnone
                show titleOK (IdeaService.applyPatch idea u2).title
                rw [ht]
                exact hst idea hidea
              · have ht := applyPatch_title_some idea u2 none hnull
                exfalso
                have : ({ IdeaService.applyPatch idea u2 with updated_at := t } : Idea).rowNotNullOk = false := by
                  simp [Idea.rowNotNullOk]
                  intro hcon
                  rw [show (IdeaService.applyPatch idea u2).title = none from ht] at hcon
                  simp at hcon
                rw [this] at hok
                cases hok
              · have ht := applyPatch_title_some idea u2 (some w) hw
                show titleOK (IdeaService.applyPatch idea u2).title
                rw [ht]
                exact hwOK
            rw [← hupd.2]
            intro r hr
            obtain ⟨r0, hr0, hr0eq⟩ := List.mem_map.mp hr
            by_cases hid :
                (r0.id
                    == ({ IdeaService.applyPatch idea u2 with updated_at := t } : Idea).id)
                  = true
            · rw [if_pos hid] at hr0eq
              rw [← hr0eq]
              exact hptitle
            · rw [if_neg hid] at hr0eq
              rw [← hr0eq]
              exact hst r0 hr0
          · rw [if_neg hok] at hupd; cases hupd

/-- Deletion preserves the title invariant. -/
theorem delete_preserves_titles (st : Store) (i : Nat) (uid : String)
    (hst : storeTitlesOK st) :
    storeTitlesOK (IdeaService.delete_idea st i uid).2.1 := by
  rw [delete_idea_store_eq]
  unfold IdeaRepository.delete_by_id_and_user
  cases hf : IdeaRepository.get_by_id_and_user st i uid with
  | none => exact hst
  | some idea =>
      intro r hr
      exact hst r (List.mem_of_mem_filter hr)

/-- Claim C9, counterexample: the PATCH body `{"title": null}` passes
schema validation unchanged (it is not rejected with a validation
error), reaches the store (two repository calls), and only fails there
with an integrity error — surfaced as Internal, not as a validation
error. -/
theorem C9_null_title_passes_validation :
    IdeaUpdate.validate titleNullPatch = .ok titleNullPatch
      ∧ (IdeaService.update_idea c9store 91 "u1" titleNullPatch 5).1
        = .error (.internal "IntegrityError: NOT NULL constraint failed")
      ∧ (IdeaService.update_idea c9store 91 "u1" titleNullPatch 5).2.2 = 2 := by
  decide

/-- Claim C9 (corrected): stored titles are always normalised and
non-empty, and empty or whitespace-only title strings are rejected by
schema validation; but an explicitly null title passes validation and
is stopped only by the store's NOT NULL constraint at flush time,
which leaves the store unchanged and surfaces as an integrity error
rather than a validation error. -/
theorem C9_title_invariant_and_null_title_escape :
    (∀ v : String, pyStrip v = "" →
        errB (validateTitleBase v) = true
          ∧ errB (IdeaUpdate.validate_title (some v)) = true)
      ∧ (∀ d d2 : IdeaCreate, IdeaCreate.validate d = .ok d2 →
          titleOK (some d2.title))
      ∧ (∀ (st : Store) (uidC : String) (d d2 : IdeaCreate) (fid t1 t2 : Nat),
          IdeaCreate.validate d = .ok d2 → storeTitlesOK st →
          storeTitlesOK (IdeaService.create_idea st uidC d2 fid t1 t2).2.1)
      ∧ (∀ (st : Store) (i : Nat) (uid : String) (u u2 : IdeaUpdate) (t : Nat),
          IdeaUpdate.validate u = .ok u2 → storeTitlesOK st →
          storeTitlesOK (IdeaService.update_idea st i uid u2 t).2.1)
      ∧ (∀ (st : Store) (i : Nat) (uid : String), storeTitlesOK st →
          storeTitlesOK (IdeaService.delete_idea st i uid).2.1)
      ∧ IdeaUpdate.validate titleNullPatch = .ok titleNullPatch
      ∧ (∀ (st : Store) (i : Nat) (uid : String) (t : Nat),
          (IdeaService.update_idea st i uid titleNullPatch t).2.1 = st) := by
  refine ⟨empty_title_rejected, ?_, ?_, ?_, delete_preserves_titles, by decide, ?_⟩
  · intro d d2 hv
    obtain ⟨ht, hne, -⟩ := validate_create_shape d d2 hv
    exact ⟨d.title, by rw [ht], hne⟩
  · intro st uidC d d2 fid t1 t2 hv hst
    obtain ⟨ht, hne, -⟩ := validate_create_shape d d2 hv
    exact create_preserves_titles st uidC d2 fid t1 t2 ⟨d.title, by rw [ht], hne⟩ hst
  · intro st i uid u u2 t hv hst
    exact update_preserves_titles st i uid u2 t (validate_upd_shape u u2 hv).1 hst
  · intro st i uid t
    rw [update_idea_store_eq]
    cases hf : IdeaRepository.get_by_id_and_user st i uid with
    | none => rfl
    | some idea =>
        show (match Store.update st
            { IdeaService.applyPatch idea titleNullPatch with updated_at := t } with
          | .error _ => st
          | .ok (_, st') => st') = st
        have hnn :
            ({ IdeaService.applyPatch idea titleNullPatch with
                updated_at := t } : Idea).rowNotNullOk = false := by
          simp [IdeaService.applyPatch, titleNullPatch, Idea.rowNotNullOk]
        simp [Store.update, hnn]

/-- Witness for C9: a whitespace-only title is rejected by both
validators, and a null-title PATCH leaves a concrete store
unchanged. -/
theorem C9_title_invariant_witness :
    (errB (validateTitleBase "   ") = true
        ∧ errB (IdeaUpdate.validate_title (some "   ")) = true)
      ∧ (IdeaService.update_idea c9store 91 "u1" titleNullPatch 5).2.1 = c9store :=
  ⟨C9_title_invariant_and_null_title_escape.1 "   " (by decide),
   C9_title_invariant_and_null_title_escape.2.2.2.2.2.2 c9store 91 "u1" 5⟩

/-- Claim C10, counterexample: an explicitly null title is NOT applied
to the stored idea — the store's NOT NULL constraint rejects the
flush, the stored idea keeps its title, and the update fails with an
integrity error. -/
theorem C10_null_title_not_applied :
    (IdeaService.update_idea c10store 101 "u1" titleNullPatch 9).2.1 = c10store
      ∧ (IdeaService.update_idea c10store 101 "u1" titleNullPatch 9).1
        = .error (.internal "IntegrityError: NOT NULL constraint failed") := by
  decide

/-- Claim C10 (corrected): explicitly supplying null is distinct from
omitting a field.  Omitted fields are left untouched; explicit nulls
are applied to the idea object (notes, due_date and tags become null,
the empty tags list becomes the empty string, the title becomes null
in memory), and an explicit-null notes PATCH is flushed to the store;
only the explicit-null title fails at persistence (NOT NULL), leaving
the stored idea unchanged. -/
theorem C10_explicit_null_vs_omitted (idea : Idea) (st : Store) (t : Nat) :
    IdeaService.applyPatch idea {} = idea
      ∧ (IdeaService.applyPatch idea { notes := some none }).notes = none
      ∧ (IdeaService.applyPatch idea { due_date := some none }).due_date = none
      ∧ (IdeaService.applyPatch idea { tags := some none }).tags = none
      ∧ (IdeaService.applyPatch idea { tags := some (some []) }).tags = some ""
      ∧ (IdeaService.applyPatch idea titleNullPatch).title = none
      ∧ (IdeaRepository.get_by_id_and_user st idea.id idea.user_id = some idea →
          idea.rowNotNullOk = true →
          (IdeaService.update_idea st idea.id idea.user_id { notes := some none } t).2.1
            = ⟨st.rows.map fun r =>
                if r.id == idea.id then { idea with notes := none, updated_at := t }
                else r⟩)
      ∧ (IdeaService.update_idea st idea.id idea.user_id titleNullPatch t).2.1
          = st := by
  refine ⟨rfl, rfl, rfl, rfl, rfl, rfl, ?_, ?_⟩
  · intro hf hok
    rw [update_idea_store_eq, hf]
    show (match Store.update st
        { IdeaService.applyPatch idea { notes := some none } with updated_at := t } with
      | .error _ => st
      | .ok (_, st') => st') = _
    have hok2 : ({ idea with notes := none, updated_at := t } : Idea).rowNotNullOk
        = true := by
      simpa [Idea.rowNotNullOk] using hok
    simp [Store.update, IdeaService.applyPatch, hok2]
  · rw [update_idea_store_eq]
    cases hf : IdeaRepository.get_by_id_and_user st idea.id idea.user_id with
    | none => rfl
    | some idea2 =>
        show (match Store.update st
            { IdeaService.applyPatch idea2 titleNullPatch with updated_at := t } with
          | .error _ => st
          | .ok (_, st') => st') = st
        have hnn :
            ({ IdeaService.applyPatch idea2 titleNullPatch with
                updated_at := t } : Idea).rowNotNullOk = false := by
          simp [IdeaService.applyPatch, titleNullPatch, Idea.rowNotNullOk]
        simp [Store.update, hnn]

/-- Witness for C10 at a concrete store: the empty patch is the
identity and an explicit-null notes PATCH reaches the store. -/
theorem C10_explicit_null_vs_omitted_witness :
    IdeaService.applyPatch c10row {} = c10row
      ∧ (IdeaService.update_idea c10store c10row.id c10row.user_id
          { notes := some none } 9).2.1
        = ⟨c10store.rows.map fun r =>
            if r.id == c10row.id then { c10row with notes := none, updated_at := 9 }
            else r⟩ :=
  ⟨(C10_explicit_null_vs_omitted c10row c10store 9).1,
   (C10_explicit_null_vs_omitted c10row c10store 9).2.2.2.2.2.2.1
     (by decide) (by decide)⟩
